import Mathlib

/-!
Verification development for the campaign world model (`campaign.py`) and
the world builder (`campaign_generators.py`).

The Python classes are embedded as Lean structures.  Conventions:
- Python strings are `String`, Python lists are `List`.
- A Python `dict` (insertion ordered, unique keys) is a `List (String × String)`
  of key/value pairs in insertion order; assignment `d[k] = v` is `dictSet`.
- `datetime.datetime.now().strftime(...)` results are opaque: wherever the
  source stores a fresh timestamp, the embedding takes it as an explicit
  `String` parameter (named `now…`).
- Python object identity matters only for `Relationship` membership tests
  (`in` falls back to identity because the class defines no `__eq__`), so a
  relationship held by a `World` is a `RelObj`: an identity tag (`Nat`)
  paired with the object state.  A freshly allocated object carries an
  identity tag distinct from every live object.
- Exceptions are modelled with `Except PyErr`.
-/

/-- Python exception kinds that the embedded code can raise. -/
inductive PyErr where
  | keyError
  | typeError
  | attributeError
  | valueError
  | nameError
deriving DecidableEq, Repr

/-- Size enumeration (campaign.py lines 10-17), an `IntEnum` in the source. -/
inductive Size where
  | TINY
  | SMALL
  | MEDIUM
  | LARGE
  | HUGE
  | GARGANTUAN
deriving DecidableEq, Repr

/-- Ordinal of a `Size` member, the value JSON serialization writes
(`IntEnum` members serialize as their integer value). -/
def Size.toInt : Size → Int
  | .TINY => 0
  | .SMALL => 1
  | .MEDIUM => 2
  | .LARGE => 3
  | .HUGE => 4
  | .GARGANTUAN => 5

/-- Item (campaign.py lines 184-201).  Constructor defaults: empty
description, empty trait dict, `Size.MEDIUM`. -/
structure Item where
  name : String
  description : String
  traits : List (String × String)
  size : Size
deriving DecidableEq, Repr

/-- Location (campaign.py lines 83-107).  `traits` is a plain Python list of
`(quality, description)` tuples, not a dict. -/
structure Location where
  name : String
  description : String
  traits : List (String × String)
  inventory : List Item
deriving DecidableEq, Repr

/-- Character (campaign.py lines 113-142).  `traits` is a dict
(insertion-ordered, unique keys); `created_time` is the timestamp identifier
assigned in `__init__`. -/
structure Character where
  name : String
  description : String
  traits : List (String × String)
  inventory : List Item
  created_time : String
deriving DecidableEq, Repr

/-- Relationship state (campaign.py lines 144-182): the seven instance
fields assigned by `__init__`, all strings. -/
structure Relationship where
  characterAName : String
  characterA_ID : String
  characterBName : String
  characterB_ID : String
  relateAB : String
  relateBA : String
  created_time : String
deriving DecidableEq, Repr

/-- A Relationship object as held by a `World`: object identity tag plus
state.  Python `in` on a list of Relationships compares by identity because
the class defines no `__eq__`. -/
structure RelObj where
  id : Nat
  val : Relationship
deriving DecidableEq, Repr

/-- World (campaign.py lines 19-81).  The constructor starts all three
collections empty; `created_time` is assigned from the clock. -/
structure World where
  name : String
  description : String
  characters : List Character
  relationships : List RelObj
  locations : List Location
  created_time : String
deriving DecidableEq, Repr

/-- Character constructor `Character(name)` (lines 115-120); `now` is the
`datetime.now().strftime(...)` value. -/
def Character.init (name : String) (now : String) : Character :=
  { name := name, description := "", traits := [], inventory := [], created_time := now }

/-- Relationship constructor `Relationship(characterA, characterB)`
(lines 146-153). -/
def Relationship.init (characterA characterB : Character) (now : String) : Relationship :=
  { characterAName := characterA.name
    characterA_ID := characterA.created_time
    characterBName := characterB.name
    characterB_ID := characterB.created_time
    relateAB := ""
    relateBA := ""
    created_time := now }

/-- Method `set_symmetric_relationship` (lines 161-164). -/
def Relationship.set_symmetric_relationship (r : Relationship) (relationship : String) : Relationship :=
  { r with relateAB := relationship, relateBA := relationship }

/-- Method `set_asymmetric_relationship` (lines 166-170). -/
def Relationship.set_asymmetric_relationship (r : Relationship) (relateAB relateBA : String) : Relationship :=
  { r with relateAB := relateAB, relateBA := relateBA }

/-- Method `flipped` (lines 176-182).  Line 178 builds
`Relationship(Character(self.characterBName), Character(self.characterAName))`,
whose constructor-assigned IDs and creation time come from the clock
(`nowA`, `nowB`, `nowR`); lines 179-181 then overwrite `created_time`, both
ID fields and both direction descriptions from `self`. -/
def Relationship.flipped (r : Relationship) (nowA nowB nowR : String) : Relationship :=
  let temp := Relationship.init (Character.init r.characterBName nowA) (Character.init r.characterAName nowB) nowR
  let temp := { temp with created_time := r.created_time }
  let temp := { temp with characterA_ID := r.characterB_ID, characterB_ID := r.characterA_ID }
  { temp with relateAB := r.relateBA, relateBA := r.relateAB }

/-- Python dict assignment `d[quality] = description`: update the first
entry with that key in place, otherwise append at the end. -/
def dictSet : List (String × String) → String → String → List (String × String)
  | [], k, v => [(k, v)]
  | (k1, v1) :: rest, k, v =>
    if k1 = k then (k1, v) :: rest else (k1, v1) :: dictSet rest k v

/-- Method `Character.add_trait` (lines 128-131): dict assignment, so a
repeated key overwrites. -/
def Character.add_trait (c : Character) (quality description : String) : Character :=
  { c with traits := dictSet c.traits quality description }

/-- Method `Item.add_trait` (lines 198-201): dict assignment, so a repeated
key overwrites. -/
def Item.add_trait (i : Item) (quality description : String) : Item :=
  { i with traits := dictSet i.traits quality description }

/-- Method `Location.add_trait` (lines 97-100): a plain list append of the
`(quality, description)` tuple, duplicates allowed. -/
def Location.add_trait (l : Location) (quality description : String) : Location :=
  { l with traits := l.traits ++ [(quality, description)] }

/-- Method `Character.add_item` (lines 133-135). -/
def Character.add_item (c : Character) (item : Item) : Character :=
  { c with inventory := c.inventory ++ [item] }

/-- Method `Location.add_item` (lines 102-104). -/
def Location.add_item (l : Location) (item : Item) : Location :=
  { l with inventory := l.inventory ++ [item] }

/-- Method `World.add_character` (lines 35-37); the type assert is enforced
by the Lean type. -/
def World.add_character (w : World) (character : Character) : World :=
  { w with characters := w.characters ++ [character] }

/-- Method `World.add_location` (lines 46-48). -/
def World.add_location (w : World) (location : Location) : World :=
  { w with locations := w.locations ++ [location] }

/-- Python `x in lst` for Relationship objects: `==` falls back to object
identity because `Relationship` defines no `__eq__`, so membership compares
identity tags only, never field contents. -/
def pyMem (r : RelObj) (lst : List RelObj) : Bool :=
  lst.any (fun o => o.id == r.id)

/-- Method `World.add_relationship` (lines 39-44).  `flipId` is the identity
tag of the fresh object allocated by the `relationship.flipped()` call on
line 41, and `nowA nowB nowR` are the clock readings inside that call. -/
def World.add_relationship (w : World) (r : RelObj) (flipId : Nat)
    (nowA nowB nowR : String) : World × Bool :=
  let flipObj : RelObj := ⟨flipId, r.val.flipped nowA nowB nowR⟩
  if !(pyMem r w.relationships) && !(pyMem flipObj w.relationships) then
    ({ w with relationships := w.relationships ++ [r] }, true)
  else
    (w, false)

/-- The name-matching condition of line 53: the stored relationship links
the two argument characters, in either role order.  Only the `name` fields
are compared; the ID fields play no part. -/
def Relationship.connects (r : Relationship) (characterA characterB : Character) : Bool :=
  (r.characterAName == characterA.name && r.characterBName == characterB.name) ||
  (r.characterAName == characterB.name && r.characterBName == characterA.name)

/-- Method `World.get_relationship_between` (lines 50-55): first stored
relationship whose names match the two characters in either order, else
`None`. -/
def World.get_relationship_between (w : World) (characterA characterB : Character) : Option RelObj :=
  w.relationships.find? (fun o => o.val.connects characterA characterB)

/-!
Serialization layer.  `json.dumps`/`json.loads` move between text and the
parsed JSON value; the embedding works on parsed values (`JVal`), and a
serialized text is identified with its parse tree.  The nested
`json.loads(dct[...], cls=...)` calls inside the decoders receive a VALUE
taken out of an already parsed document; they succeed only when that value
is itself a string holding JSON text (`loadsWith`), which is exactly the
behaviour the decoders rely on.
-/

/-- Parsed JSON value, the result of `json.loads`.  Numeric literals are
modelled as integers (the only numbers the model writes are `Size`
ordinals); an object is its key/value pairs in document order. -/
inductive JVal where
  | jnull
  | jbool (b : Bool)
  | jnum (n : Int)
  | jstr (s : String)
  | jarr (elems : List JVal)
  | jobj (fields : List (String × JVal))

/-- Lookup of a key in a parsed JSON object, first match (a parsed Python
dict has unique keys). -/
def lookupField : List (String × JVal) → String → Option JVal
  | [], _ => none
  | (k1, v1) :: rest, key => if k1 == key then some v1 else lookupField rest key

/-- Python subscript `dct[key]`: `KeyError` when the key is absent,
`TypeError` when the subscripted value is not a dict (string keys never
index lists, numbers, booleans or `None`). -/
def getKey (v : JVal) (key : String) : Except PyErr JVal :=
  match v with
  | .jobj fields =>
    match lookupField fields key with
    | some x => .ok x
    | none => .error .keyError
  | _ => .error .typeError

/-- JSON whitespace. -/
def jsonWs (c : Char) : Bool :=
  c == ' ' || c == '\n' || c == '\t' || c == '\r'

/-- Character produced by a backslash escape inside a JSON string literal
(the common single-character escapes; `\uXXXX` escapes are out of scope:
the source writes documents with `ensure_ascii=True` and no claim depends
on textual parsing of escapes). -/
def escapeChar (c : Char) : Char :=
  if c == 'n' then '\n'
  else if c == 't' then '\t'
  else if c == 'r' then '\r'
  else if c == 'b' then '\x08'
  else if c == 'f' then '\x0c'
  else c

/-- Scan the remainder of a JSON string literal (after the opening quote).
The `Bool` flag records a pending backslash. -/
def scanStringRest : List Char → Bool → List Char → Option (String × List Char)
  | [], _, _ => none
  | c :: rest, true, acc => scanStringRest rest false (escapeChar c :: acc)
  | c :: rest, false, acc =>
    if c == '"' then some (String.mk acc.reverse, rest)
    else if c == '\\' then scanStringRest rest true acc
    else scanStringRest rest false (c :: acc)

/-- Numeric value of a decimal digit. -/
def digitVal (c : Char) : Nat := c.toNat - '0'.toNat

/-- Scan a nonempty run of decimal digits. -/
def scanDigits (cs : List Char) : Option (Nat × List Char) :=
  let ds := cs.takeWhile (fun c => c.isDigit)
  if ds.isEmpty then none
  else some (ds.foldl (fun n c => n * 10 + digitVal c) 0, cs.drop ds.length)

mutual

/-- Fueled recursive-descent scan of one JSON value. -/
def scanVal : Nat → List Char → Option (JVal × List Char)
  | 0, _ => none
  | fuel + 1, cs =>
    match cs.dropWhile jsonWs with
    | [] => none
    | c :: rest =>
      if c == '"' then
        match scanStringRest rest false [] with
        | some (s, rest2) => some (.jstr s, rest2)
        | none => none
      else if c == '\x7b' then scanObjFields fuel (rest.dropWhile jsonWs) []
      else if c == '[' then scanArrElems fuel (rest.dropWhile jsonWs) []
      else if c == 'n' then
        match rest with
        | 'u' :: 'l' :: 'l' :: r => some (.jnull, r)
        | _ => none
      else if c == 't' then
        match rest with
        | 'r' :: 'u' :: 'e' :: r => some (.jbool true, r)
        | _ => none
      else if c == 'f' then
        match rest with
        | 'a' :: 'l' :: 's' :: 'e' :: r => some (.jbool false, r)
        | _ => none
      else if c == '-' then
        match scanDigits rest with
        | some (n, r) => some (.jnum (-(n : Int)), r)
        | none => none
      else
        match scanDigits (c :: rest) with
        | some (n, r) => some (.jnum (n : Int), r)
        | none => none

/-- Scan array elements after `[` (input is whitespace-stripped). -/
def scanArrElems : Nat → List Char → List JVal → Option (JVal × List Char)
  | 0, _, _ => none
  | fuel + 1, cs, acc =>
    match cs with
    | ']' :: rest => some (.jarr acc.reverse, rest)
    | _ =>
      match scanVal fuel cs with
      | none => none
      | some (v, rest) =>
        match rest.dropWhile jsonWs with
        | ',' :: rest2 => scanArrElems fuel (rest2.dropWhile jsonWs) (v :: acc)
        | ']' :: rest2 => some (.jarr ((v :: acc).reverse), rest2)
        | _ => none

/-- Scan object members after the opening brace (input is
whitespace-stripped). -/
def scanObjFields : Nat → List Char → List (String × JVal) → Option (JVal × List Char)
  | 0, _, _ => none
  | fuel + 1, cs, acc =>
    match cs with
    | '\x7d' :: rest => some (.jobj acc.reverse, rest)
    | '"' :: rest =>
      match scanStringRest rest false [] with
      | none => none
      | some (k, rest2) =>
        match rest2.dropWhile jsonWs with
        | ':' :: rest3 =>
          match scanVal fuel (rest3.dropWhile jsonWs) with
          | none => none
          | some (v, rest4) =>
            match rest4.dropWhile jsonWs with
            | ',' :: rest5 => scanObjFields fuel (rest5.dropWhile jsonWs) ((k, v) :: acc)
            | '\x7d' :: rest5 => some (.jobj ((k, v) :: acc).reverse, rest5)
            | _ => none
        | _ => none
    | _ => none

end

/-- Parse a JSON text, `json.loads` on a string: one value, then only
trailing whitespace. -/
def parseJson (s : String) : Option JVal :=
  match scanVal (s.length + 1) s.data with
  | some (v, rest) => if (rest.dropWhile jsonWs).isEmpty then some v else none
  | none => none

/-- A nested `json.loads(v, cls=SomeDecoder)` call on a value taken out of
an already parsed document: it raises `TypeError` unless `v` is a string,
otherwise parses the string and hands the parsed document to the decoder
body. -/
def loadsWith {α : Type} (dec : JVal → Except PyErr α) (v : JVal) : Except PyErr α :=
  match v with
  | .jstr s =>
    match parseJson s with
    | some parsed => dec parsed
    | none => .error .valueError
  | _ => .error .typeError

/-- Item serialization (`Item.__str__`, lines 192-193, with `ItemEncoder`,
lines 219-221): the `__dict__` in field assignment order; the `Size` member
serializes as its integer value. -/
def Item.encode (i : Item) : JVal :=
  .jobj [("name", .jstr i.name),
         ("description", .jstr i.description),
         ("traits", .jobj (i.traits.map (fun p => (p.1, JVal.jstr p.2)))),
         ("size", .jnum i.size.toInt)]

/-- Method `Character.encode` (lines 137-138, via `CharacterEncoder`):
`__dict__` with nested Items encoded recursively. -/
def Character.encode (c : Character) : JVal :=
  .jobj [("name", .jstr c.name),
         ("description", .jstr c.description),
         ("traits", .jobj (c.traits.map (fun p => (p.1, JVal.jstr p.2)))),
         ("inventory", .jarr (c.inventory.map Item.encode)),
         ("created_time", .jstr c.created_time)]

/-- Method `Location.encode` (lines 106-107, via `LocationEncoder`):
trait tuples serialize as two-element arrays. -/
def Location.encode (l : Location) : JVal :=
  .jobj [("name", .jstr l.name),
         ("description", .jstr l.description),
         ("traits", .jarr (l.traits.map (fun p => JVal.jarr [.jstr p.1, .jstr p.2]))),
         ("inventory", .jarr (l.inventory.map Item.encode))]

/-- Method `Relationship.encode` (lines 172-174): the seven string fields. -/
def Relationship.encode (r : Relationship) : JVal :=
  .jobj [("characterAName", .jstr r.characterAName),
         ("characterA_ID", .jstr r.characterA_ID),
         ("characterBName", .jstr r.characterBName),
         ("characterB_ID", .jstr r.characterB_ID),
         ("relateAB", .jstr r.relateAB),
         ("relateBA", .jstr r.relateBA),
         ("created_time", .jstr r.created_time)]

/-- Method `World.encode` (lines 77-78, via `WorldEncoder`): nested entity
lists are serialized recursively as arrays of objects (object identity tags
are not part of `__dict__` and do not serialize). -/
def World.encode (w : World) : JVal :=
  .jobj [("name", .jstr w.name),
         ("description", .jstr w.description),
         ("characters", .jarr (w.characters.map Character.encode)),
         ("relationships", .jarr (w.relationships.map (fun o => o.val.encode))),
         ("locations", .jarr (w.locations.map Location.encode)),
         ("created_time", .jstr w.created_time)]

/-- Result of a protected nested sub-collection decode: either the empty
default the `except:` branch assigns, or the value the nested
`json.loads(..., cls=...)` call produced. -/
inductive DColl (α : Type) where
  | defaultEmpty
  | loaded (val : α)
deriving Repr

/-- Item reconstructed by `ItemDecoder.decode`: `name`, `description`,
`traits` and `size` are stored exactly as found in the document, so they
can hold any JSON value. -/
structure DItem where
  name : JVal
  description : JVal
  traits : JVal
  size : JVal

/-- Location reconstructed by `LocationDecoder.decode`. -/
structure DLocation where
  name : JVal
  description : JVal
  traits : JVal
  inventory : DColl DItem

/-- Character reconstructed by `CharacterDecoder.decode`.  `description` is
the Python string the constructor assigned; the decoder never touches it. -/
structure DCharacter where
  name : JVal
  description : String
  traits : JVal
  inventory : DColl DItem
  created_time : JVal

/-- Relationship as `RelationshipDecoder.decode` would reconstruct it; the
decoder never completes, so no value of this shape is ever produced. -/
structure DRelationship where
  characterAName : JVal
  characterA_ID : JVal
  characterBName : JVal
  characterB_ID : JVal
  relateAB : JVal
  relateBA : JVal
  created_time : JVal

/-- World reconstructed by `WorldDecoder.decode`.  Each sub-collection is
either the empty default or the single entity a nested decoder produced. -/
structure DWorld where
  name : JVal
  description : JVal
  characters : DColl DCharacter
  relationships : DColl DRelationship
  locations : DColl DLocation
  created_time : JVal

/-- `ItemDecoder.decode` (lines 281-294) applied to the parsed document:
`name` (line 284) and `description` (line 285) are required; `traits`
defaults to the empty list `[]` and `size` to `Size.MEDIUM` (integer value
2) only when the lookup raises, any present value being stored verbatim. -/
def ItemDecoder.decode (dct : JVal) : Except PyErr DItem :=
  match getKey dct "name" with
  | .error e => .error e
  | .ok nameV =>
    match getKey dct "description" with
    | .error e => .error e
    | .ok descV =>
      let traitsV := match getKey dct "traits" with
        | .ok v => v
        | .error _ => JVal.jarr []
      let sizeV := match getKey dct "size" with
        | .ok v => v
        | .error _ => JVal.jnum 2
      .ok { name := nameV, description := descV, traits := traitsV, size := sizeV }

/-- `LocationDecoder.decode` (lines 242-255) applied to the parsed
document: `name` and `description` are required; `traits` falls back to
`[]` when absent; `inventory` is re-parsed through
`json.loads(..., cls=ItemDecoder)` and any failure (absent key, non-string
value, unparsable text, failing inner decode) falls back to `[]`. -/
def LocationDecoder.decode (dct : JVal) : Except PyErr DLocation :=
  match getKey dct "name" with
  | .error e => .error e
  | .ok nameV =>
    match getKey dct "description" with
    | .error e => .error e
    | .ok descV =>
      let traitsV := match getKey dct "traits" with
        | .ok v => v
        | .error _ => JVal.jarr []
      let invV : DColl DItem := match getKey dct "inventory" with
        | .error _ => .defaultEmpty
        | .ok v =>
          match loadsWith ItemDecoder.decode v with
          | .ok i => .loaded i
          | .error _ => .defaultEmpty
      .ok { name := nameV, description := descV, traits := traitsV, inventory := invV }

/-- `CharacterDecoder.decode` (lines 257-270) applied to the parsed
document: `name` (line 260) and `created_time` (line 269) are required;
`traits` and `inventory` are protected with fallbacks as for Location.
The `description` key of the document is never read, so the reconstructed
character keeps the constructor-assigned empty string. -/
def CharacterDecoder.decode (dct : JVal) : Except PyErr DCharacter :=
  match getKey dct "name" with
  | .error e => .error e
  | .ok nameV =>
    let traitsV := match getKey dct "traits" with
      | .ok v => v
      | .error _ => JVal.jarr []
    let invV : DColl DItem := match getKey dct "inventory" with
      | .error _ => .defaultEmpty
      | .ok v =>
        match loadsWith ItemDecoder.decode v with
        | .ok i => .loaded i
        | .error _ => .defaultEmpty
    match getKey dct "created_time" with
    | .error e => .error e
    | .ok ctV =>
      .ok { name := nameV, description := "", traits := traitsV, inventory := invV, created_time := ctV }

/-- `RelationshipDecoder.decode` (lines 272-279) applied to the parsed
document: line 275 calls `Relationship(dct["characterAName"],
dct["characterBName"])`, and the constructor (line 147) reads the `name`
attribute of its first argument.  Values coming out of `json.loads` are
strings, numbers, booleans, `None`, lists or dicts, none of which has a
`name` attribute, so the constructor call always raises `AttributeError`
and the decode never completes. -/
def RelationshipDecoder.decode (dct : JVal) : Except PyErr DRelationship :=
  match getKey dct "characterAName" with
  | .error e => .error e
  | .ok _ =>
    match getKey dct "characterBName" with
    | .error e => .error e
    | .ok _ => .error .attributeError

/-- `WorldDecoder.decode` (lines 223-240) applied to the parsed document:
`name`, `description` and `created_time` are required; each of the three
sub-collections is re-parsed through `json.loads(dct[...], cls=...)`
inside `try`, and any failure falls back to the empty list. -/
def WorldDecoder.decode (dct : JVal) : Except PyErr DWorld :=
  match getKey dct "name" with
  | .error e => .error e
  | .ok nameV =>
    match getKey dct "description" with
    | .error e => .error e
    | .ok descV =>
      let charsV : DColl DCharacter := match getKey dct "characters" with
        | .error _ => .defaultEmpty
        | .ok v =>
          match loadsWith CharacterDecoder.decode v with
          | .ok c => .loaded c
          | .error _ => .defaultEmpty
      let relsV : DColl DRelationship := match getKey dct "relationships" with
        | .error _ => .defaultEmpty
        | .ok v =>
          match loadsWith RelationshipDecoder.decode v with
          | .ok r => .loaded r
          | .error _ => .defaultEmpty
      let locsV : DColl DLocation := match getKey dct "locations" with
        | .error _ => .defaultEmpty
        | .ok v =>
          match loadsWith LocationDecoder.decode v with
          | .ok l => .loaded l
          | .error _ => .defaultEmpty
      match getKey dct "created_time" with
      | .error e => .error e
      | .ok ctV =>
        .ok { name := nameV, description := descV, characters := charsV,
              relationships := relsV, locations := locsV, created_time := ctV }

/-!
World builder (`campaign_generators.py`).  A generation call
(`generate_location`, `generate_character`, ...) either returns a parsed
entity or raises `ValueError` (truncated or malformed response); the
Generation Service is therefore embedded as an oracle
`gen : Nat → Nat → Option entity` giving the outcome of the call for
entity index `i` at attempt `j` (`none` = `ValueError` raised).
-/

/-- Retry limit constant (campaign_generators.py line 18). -/
def RETRY_LIMIT : Nat := 3

/-- The inner retry loop `for j in range(RETRY_LIMIT): try: ...; break
except ValueError: continue` (lines 308-313): result of the first
successful attempt among `j, j+1, ...` within the remaining budget, `none`
when every attempt raises. -/
def retryAttempts {α : Type} (gen : Nat → Option α) : Nat → Nat → Option α
  | _, 0 => none
  | j, budget + 1 =>
    match gen j with
    | some x => some x
    | none => retryAttempts gen (j + 1) budget

/-- The location phase of `generate_world` (lines 307-316).  After the
retry loop, line 314 runs `if(location in locals()): continue`: `locals()`
is a dict whose keys are the local variable NAMES, so the membership test
compares the Location object against strings and is false whenever
`location` is bound — the `continue` never fires and `add_location` always
runs.  When every attempt of the current entity raised and `location` was
bound by an earlier iteration, the stale earlier Location is appended
again; when `location` was never bound, evaluating it raises `NameError`,
which nothing catches, so the whole run aborts.  `i` is the current entity
index, `bound` the binding of the `location` variable carried across
iterations. -/
def generate_world_locations (gen : Nat → Nat → Option Location) :
    Nat → Nat → Option Location → World → Except PyErr World
  | _, 0, _, w => .ok w
  | i, remaining + 1, bound, w =>
    match retryAttempts (gen i) 0 RETRY_LIMIT, bound with
    | some loc, _ => generate_world_locations gen (i + 1) remaining (some loc) (w.add_location loc)
    | none, some prev => generate_world_locations gen (i + 1) remaining (some prev) (w.add_location prev)
    | none, none => .error .nameError

/-- The character phase of `generate_world` (lines 318-327), identical in
structure to the location phase, with `if(character in locals()):` on line
325 behaving the same way. -/
def generate_world_characters (gen : Nat → Nat → Option Character) :
    Nat → Nat → Option Character → World → Except PyErr World
  | _, 0, _, w => .ok w
  | i, remaining + 1, bound, w =>
    match retryAttempts (gen i) 0 RETRY_LIMIT, bound with
    | some c, _ => generate_world_characters gen (i + 1) remaining (some c) (w.add_character c)
    | none, some prev => generate_world_characters gen (i + 1) remaining (some prev) (w.add_character prev)
    | none, none => .error .nameError

/-! Concrete fixtures used by the counterexample and witness theorems. -/

/-- A character named Ada with identifier T1. -/
def adaC : Character := { name := "Ada", description := "", traits := [], inventory := [], created_time := "T1" }

/-- A character named Bel with identifier T2. -/
def belC : Character := { name := "Bel", description := "", traits := [], inventory := [], created_time := "T2" }

/-- A character also named Ada but with a different identifier T99. -/
def ada99 : Character := { name := "Ada", description := "", traits := [], inventory := [], created_time := "T99" }

/-- An asymmetric Ada-to-Bel relationship. -/
def relAB : Relationship :=
  (Relationship.init adaC belC "T3").set_asymmetric_relationship "likes" "fears"

/-- The mirror of `relAB`: a fresh object whose content is `relAB` flipped. -/
def relBA : Relationship := relAB.flipped "x1" "x2" "x3"

/-- A second, distinct relationship between the same two characters. -/
def relAB2 : Relationship :=
  (Relationship.init adaC belC "T4").set_asymmetric_relationship "admires" "ignores"

/-- A world holding the single relationship object `relAB` (identity tag 0). -/
def worldW : World :=
  { name := "W", description := "D", characters := [],
    relationships := [⟨0, relAB⟩], locations := [], created_time := "T0" }

/-- A world holding two stored relationships that both link Ada and Bel. -/
def worldW2 : World :=
  { name := "W", description := "D", characters := [],
    relationships := [⟨0, relAB⟩, ⟨3, relAB2⟩], locations := [], created_time := "T0" }

/-- A character with a nonempty description, as `generate_character`
produces (it assigns `character.description` after construction). -/
def adaDesc : Character := { name := "Ada", description := "brave", traits := [], inventory := [], created_time := "T1" }

/-- A world with one character, used for the round-trip evaluation. -/
def worldC1 : World :=
  { name := "W", description := "D", characters := [adaDesc],
    relationships := [], locations := [], created_time := "T0" }

/-- A location fixture. -/
def locA : Location := { name := "Cove", description := "", traits := [], inventory := [] }

/-- An item fixture. -/
def itemW : Item := { name := "Lamp", description := "", traits := [], size := .MEDIUM }

/-- A freshly constructed world with no entities. -/
def emptyW : World :=
  { name := "W2", description := "D2", characters := [],
    relationships := [], locations := [], created_time := "T9" }

/-- A character document that does carry a description value. -/
def charDoc : JVal :=
  .jobj [("name", .jstr "Ada"), ("description", .jstr "ignored"), ("created_time", .jstr "T1")]

/-- A location document whose `traits` value is present but malformed (a
number instead of a collection). -/
def locDocMalformed : JVal :=
  .jobj [("name", .jstr "Cove"), ("description", .jstr "dark"), ("traits", .jnum 5)]

/-- A document holding only the always-required fields. -/
def fieldsMin : List (String × JVal) :=
  [("name", .jstr "N"), ("description", .jstr "D"), ("created_time", .jstr "T")]

/-! Claim theorems. -/

/-- Claim C4: flipping a Relationship twice restores every field — both
character names, both character identifiers, both directional descriptions
and the creation timestamp — whatever clock values the two `flipped` calls
observe while building their temporary objects. -/
theorem relationship_flipped_involutive (r : Relationship) (n1 n2 n3 n4 n5 n6 : String) :
    (r.flipped n1 n2 n3).flipped n4 n5 n6 = r :=
  rfl

/-- Claim C7: a single flip returns a Relationship whose two character
references (name and identifier) and two directional descriptions are
swapped relative to the original, while the creation timestamp is
preserved. -/
theorem relationship_flipped_swaps (r : Relationship) (n1 n2 n3 : String) :
    (r.flipped n1 n2 n3).characterAName = r.characterBName ∧
    (r.flipped n1 n2 n3).characterA_ID = r.characterB_ID ∧
    (r.flipped n1 n2 n3).characterBName = r.characterAName ∧
    (r.flipped n1 n2 n3).characterB_ID = r.characterA_ID ∧
    (r.flipped n1 n2 n3).relateAB = r.relateBA ∧
    (r.flipped n1 n2 n3).relateBA = r.relateAB ∧
    (r.flipped n1 n2 n3).created_time = r.created_time :=
  ⟨rfl, rfl, rfl, rfl, rfl, rfl, rfl⟩

/-- Claim C2 (code bug): `worldW` already holds `relAB`, and `relBA` is a
distinct object that is exactly its mirror (first conjunct), yet
`add_relationship` appends it and returns True, leaving the world with two
mirror-equivalent relationships.  The membership tests on line 41 compare
object identity (no `__eq__` on the class), and `relationship.flipped()`
is a freshly allocated object that can never be identical to a stored one,
so the mirror check never rejects anything. -/
theorem add_relationship_mirror_bug :
    relBA.flipped "p1" "p2" "p3" = relAB ∧
    worldW.add_relationship ⟨1, relBA⟩ 2 "u1" "u2" "u3" =
      ({ worldW with relationships := [⟨0, relAB⟩, ⟨1, relBA⟩] }, true) :=
  ⟨rfl, rfl⟩

/-- Claim C3 (code bug): with a Generation Service whose location responses
are always malformed, requesting a single location does not abandon the
entity and continue — line 314 evaluates the unbound `location` variable
and the run aborts with `NameError` (first conjunct).  When an earlier
location had succeeded, a later entity whose three attempts all fail
re-appends the stale earlier location instead of skipping (second
conjunct).  The last two conjuncts record the retry budget itself: a
response that parses on the third attempt is used, and after three failed
attempts the loop gives up. -/
theorem generate_world_retry_abandon_bug :
    generate_world_locations (fun _ _ => none) 0 1 none emptyW = .error .nameError ∧
    generate_world_locations (fun i _ => if i == 0 then some locA else none) 0 2 none emptyW =
      .ok { emptyW with locations := [locA, locA] } ∧
    retryAttempts (fun j => if j == 2 then some locA else none) 0 RETRY_LIMIT = some locA ∧
    retryAttempts (fun _ => (none : Option Location)) 0 RETRY_LIMIT = none :=
  ⟨rfl, rfl, rfl, rfl⟩

/-- Claim C1 (code bug): decode after encode does not reproduce the
original entity.  Evaluated at concrete inputs: a Character with
description "brave" comes back with description "" and an empty inventory
default; a World with one character comes back with all three nested
collections at their empty defaults; a Relationship document does not
decode at all — the decoder raises `AttributeError`. -/
theorem roundtrip_fails_bug :
    CharacterDecoder.decode (Character.encode adaDesc) =
      .ok { name := .jstr "Ada", description := "", traits := .jobj [],
            inventory := .defaultEmpty, created_time := .jstr "T1" } ∧
    adaDesc.description = "brave" ∧
    WorldDecoder.decode (World.encode worldC1) =
      .ok { name := .jstr "W", description := .jstr "D", characters := .defaultEmpty,
            relationships := .defaultEmpty, locations := .defaultEmpty,
            created_time := .jstr "T0" } ∧
    worldC1.characters ≠ [] ∧
    RelationshipDecoder.decode (Relationship.encode relAB) = .error .attributeError :=
  ⟨rfl, rfl, rfl, by simp [worldC1], rfl⟩

/-- Claim C10: for every World, decoding the document produced by encoding
it yields empty characters, relationships and locations collections (the
decoder hands each nested array to `json.loads`, which only accepts
strings, so every sub-collection falls back to the empty default), while
name, description and creation time survive. -/
theorem world_roundtrip_collections_empty (w : World) :
    WorldDecoder.decode (World.encode w) =
      .ok { name := .jstr w.name, description := .jstr w.description,
            characters := .defaultEmpty, relationships := .defaultEmpty,
            locations := .defaultEmpty, created_time := .jstr w.created_time } :=
  rfl

/-- Claim C9: every document the Character decoder accepts reconstructs a
Character whose description is the empty string; the decoder never reads
the description field of the document. -/
theorem character_decoder_ignores_description (dct : JVal) (c : DCharacter)
    (h : CharacterDecoder.decode dct = .ok c) : c.description = "" := by
  unfold CharacterDecoder.decode at h
  cases hn : getKey dct "name" with
  | error e => rw [hn] at h; exact absurd h (by simp)
  | ok nameV =>
    rw [hn] at h
    cases hct : getKey dct "created_time" with
    | error e => rw [hct] at h; exact absurd h (by simp)
    | ok ctV =>
      rw [hct] at h
      simp only [Except.ok.injEq] at h
      rw [← h]

/-- Witness for C9: the fixture document stores description "ignored", and
the decoder accepts it yet reconstructs description "". -/
theorem character_decoder_ignores_description_witness :
    ∃ c, CharacterDecoder.decode charDoc = .ok c ∧ c.description = "" :=
  ⟨{ name := .jstr "Ada", description := "", traits := .jarr [],
     inventory := .defaultEmpty, created_time := .jstr "T1" },
   rfl, character_decoder_ignores_description charDoc _ rfl⟩

/-- Writing the same key twice into a dict leaves the state the second
write alone would produce. -/
theorem dictSet_dictSet (t : List (String × String)) (k d1 d2 : String) :
    dictSet (dictSet t k d1) k d2 = dictSet t k d2 := by
  induction t with
  | nil => simp [dictSet]
  | cons hd tl ih =>
    obtain ⟨k1, v1⟩ := hd
    by_cases h : k1 = k
    · simp [dictSet, h]
    · simp [dictSet, h, ih]

/-- A list without the key `k` has no entries surviving the key filter. -/
theorem filter_key_eq_nil (t : List (String × String)) (k : String)
    (h : ∀ p ∈ t, p.1 ≠ k) : t.filter (fun p => p.1 == k) = [] := by
  induction t with
  | nil => rfl
  | cons hd tl ih =>
    have h1 : hd.1 ≠ k := h hd (by simp)
    simp only [List.filter_cons]
    rw [if_neg (by simpa using h1)]
    exact ih (fun p hp => h p (by simp [hp]))

/-- After a dict write, the key holds exactly the written entry, provided
the dict invariant (unique keys) held before. -/
theorem filter_dictSet (t : List (String × String)) (k d : String)
    (h : (t.map Prod.fst).Nodup) :
    (dictSet t k d).filter (fun p => p.1 == k) = [(k, d)] := by
  induction t with
  | nil => simp [dictSet]
  | cons hd tl ih =>
    obtain ⟨k1, v1⟩ := hd
    simp only [List.map_cons, List.nodup_cons] at h
    obtain ⟨hk1, htl⟩ := h
    by_cases hek : k1 = k
    · subst hek
      have hnot : ∀ p ∈ tl, p.1 ≠ k1 := by
        intro p hp hpe
        exact hk1 (hpe ▸ List.mem_map_of_mem Prod.fst hp)
      simp [dictSet, List.filter_cons, filter_key_eq_nil tl k1 hnot]
    · simp [dictSet, hek, List.filter_cons, ih htl]

/-- Claim C8: re-adding a trait key overwrites on Character and Item (the
trait dict keeps exactly one entry for the key, carrying the second
description), while Location appends the duplicate pair, preserving
insertion order.  The `Nodup` hypotheses are the dict invariant on the
starting trait maps. -/
theorem add_trait_overwrite_and_append (c : Character) (i : Item) (l : Location)
    (k d1 d2 : String)
    (hc : (c.traits.map Prod.fst).Nodup) (hi : (i.traits.map Prod.fst).Nodup) :
    ((c.add_trait k d1).add_trait k d2).traits.filter (fun p => p.1 == k) = [(k, d2)] ∧
    ((i.add_trait k d1).add_trait k d2).traits.filter (fun p => p.1 == k) = [(k, d2)] ∧
    ((l.add_trait k d1).add_trait k d2).traits = l.traits ++ [(k, d1), (k, d2)] := by
  refine ⟨?_, ?_, ?_⟩
  · show (dictSet (dictSet c.traits k d1) k d2).filter (fun p => p.1 == k) = [(k, d2)]
    rw [dictSet_dictSet]
    exact filter_dictSet c.traits k d2 hc
  · show (dictSet (dictSet i.traits k d1) k d2).filter (fun p => p.1 == k) = [(k, d2)]
    rw [dictSet_dictSet]
    exact filter_dictSet i.traits k d2 hi
  · simp [Location.add_trait]

/-- Witness for C8 at concrete entities with empty trait maps. -/
theorem add_trait_witness :
    ((adaC.add_trait "brave" "a").add_trait "brave" "b").traits.filter
        (fun p => p.1 == "brave") = [("brave", "b")] ∧
    ((itemW.add_trait "brave" "a").add_trait "brave" "b").traits.filter
        (fun p => p.1 == "brave") = [("brave", "b")] ∧
    ((locA.add_trait "brave" "a").add_trait "brave" "b").traits =
      locA.traits ++ [("brave", "a"), ("brave", "b")] :=
  add_trait_overwrite_and_append adaC itemW locA "brave" "a" "b"
    (by simp [adaC]) (by simp [itemW])

/-- Swapping the two argument characters swaps the two disjuncts of the
line 53 condition. -/
theorem connects_symm (r : Relationship) (a b : Character) :
    r.connects a b = r.connects b a := by
  simp [Relationship.connects, Bool.or_comm]

/-- Lists searched with pointwise-equal predicates find the same element. -/
theorem find?_congr {α : Type} (l : List α) (p q : α → Bool)
    (h : ∀ x, p x = q x) : l.find? p = l.find? q := by
  induction l with
  | nil => rfl
  | cons hd tl ih =>
    simp only [List.find?]
    rw [h hd]
    cases q hd <;> simp [ih]

/-- Claim C6 amended: the two call orders return the same result; the
result is `None` exactly when no stored relationship links the two names;
and a returned relationship is stored and links them.  (When several
stored relationships link the same pair, the one returned is the earliest
stored, not necessarily a given one — see the counterexample.) -/
theorem get_relationship_between_spec (w : World) (a b : Character) :
    w.get_relationship_between a b = w.get_relationship_between b a ∧
    (w.get_relationship_between a b = none ↔
      ∀ o ∈ w.relationships, o.val.connects a b = false) ∧
    (∀ o, w.get_relationship_between a b = some o →
      o ∈ w.relationships ∧ o.val.connects a b = true) := by
  refine ⟨?_, ?_, ?_⟩
  · exact find?_congr w.relationships _ _ (fun o => connects_symm o.val a b)
  · simp [World.get_relationship_between, List.find?_eq_none]
  · intro o h
    unfold World.get_relationship_between at h
    have hp := List.find?_some h
    exact ⟨List.mem_of_find?_eq_some h, hp⟩

/-- Counterexample for C6 as stated: `worldW2` stores two relationships
both linking Ada and Bel; the lookup returns the first, so it does not
return the (also stored) second one.  Moreover matching is by name only:
no stored relationship of `worldW` references the character with
identifier T99, yet querying with that character still finds the
relationship stored for the other Ada. -/
theorem get_relationship_between_counterexample :
    (⟨3, relAB2⟩ : RelObj) ∈ worldW2.relationships ∧
    relAB2.connects adaC belC = true ∧
    worldW2.get_relationship_between adaC belC = some ⟨0, relAB⟩ ∧
    (⟨0, relAB⟩ : RelObj) ≠ ⟨3, relAB2⟩ ∧
    (∀ o ∈ worldW.relationships,
      o.val.characterA_ID ≠ ada99.created_time ∧
      o.val.characterB_ID ≠ ada99.created_time) ∧
    worldW.get_relationship_between ada99 belC = some ⟨0, relAB⟩ := by
  decide

/-- Witness for the amended C6 theorem at a concrete world and characters. -/
theorem get_relationship_between_witness :
    worldW.get_relationship_between adaC belC = worldW.get_relationship_between belC adaC :=
  (get_relationship_between_spec worldW adaC belC).1

/-- Subscripting a parsed JSON object reduces to the field lookup. -/
theorem getKey_jobj (fields : List (String × JVal)) (key : String) :
    getKey (.jobj fields) key =
      match lookupField fields key with
      | some x => .ok x
      | none => .error .keyError :=
  rfl

/-- Claim C5 amended: on any document carrying the always-required fields
(`name`, `description`, `created_time`), all four decoders succeed whatever
the optional sub-fields hold — a missing or malformed sub-field never
aborts the parent decode.  An ABSENT sub-field yields its empty default
(empty list for traits and for the re-parsed collections, integer 2 =
`Size.MEDIUM` for size).  A PRESENT sub-field splits: the re-parsed ones
(`inventory`, the World sub-collections) fall back to the empty default on
any failure, but `traits` and `size` are assigned verbatim, malformed or
not. -/
theorem decode_tolerates_optional_subfields (fields : List (String × JVal))
    (nv dv tv : JVal)
    (hn : lookupField fields "name" = some nv)
    (hd : lookupField fields "description" = some dv)
    (hct : lookupField fields "created_time" = some tv) :
    LocationDecoder.decode (.jobj fields) =
      .ok { name := nv, description := dv,
            traits := (lookupField fields "traits").getD (.jarr []),
            inventory :=
              match lookupField fields "inventory" with
              | some v =>
                match loadsWith ItemDecoder.decode v with
                | .ok i => .loaded i
                | .error _ => .defaultEmpty
              | none => .defaultEmpty } ∧
    CharacterDecoder.decode (.jobj fields) =
      .ok { name := nv, description := "",
            traits := (lookupField fields "traits").getD (.jarr []),
            inventory :=
              match lookupField fields "inventory" with
              | some v =>
                match loadsWith ItemDecoder.decode v with
                | .ok i => .loaded i
                | .error _ => .defaultEmpty
              | none => .defaultEmpty,
            created_time := tv } ∧
    ItemDecoder.decode (.jobj fields) =
      .ok { name := nv, description := dv,
            traits := (lookupField fields "traits").getD (.jarr []),
            size := (lookupField fields "size").getD (.jnum 2) } ∧
    WorldDecoder.decode (.jobj fields) =
      .ok { name := nv, description := dv,
            characters :=
              match lookupField fields "characters" with
              | some v =>
                match loadsWith CharacterDecoder.decode v with
                | .ok c => .loaded c
                | .error _ => .defaultEmpty
              | none => .defaultEmpty,
            relationships :=
              match lookupField fields "relationships" with
              | some v =>
                match loadsWith RelationshipDecoder.decode v with
                | .ok r => .loaded r
                | .error _ => .defaultEmpty
              | none => .defaultEmpty,
            locations :=
              match lookupField fields "locations" with
              | some v =>
                match loadsWith LocationDecoder.decode v with
                | .ok l => .loaded l
                | .error _ => .defaultEmpty
              | none => .defaultEmpty,
            created_time := tv } := by
  refine ⟨?_, ?_, ?_, ?_⟩
  · simp only [LocationDecoder.decode, getKey_jobj, hn, hd]
    cases lookupField fields "traits" <;>
      cases lookupField fields "inventory" <;>
        simp [Option.getD]
  · simp only [CharacterDecoder.decode, getKey_jobj, hn, hct]
    cases lookupField fields "traits" <;>
      cases lookupField fields "inventory" <;>
        simp [Option.getD]
  · simp only [ItemDecoder.decode, getKey_jobj, hn, hd]
    cases lookupField fields "traits" <;>
      cases lookupField fields "size" <;>
        simp [Option.getD]
  · simp only [WorldDecoder.decode, getKey_jobj, hn, hd, hct]
    cases lookupField fields "characters" <;>
      cases lookupField fields "relationships" <;>
        cases lookupField fields "locations" <;>
          simp [Option.getD]

/-- Counterexample for C5 as stated: a Location document whose `traits`
value is present but malformed (the number 5) decodes without failing, but
the malformed value is stored verbatim instead of the empty default. -/
theorem decode_malformed_traits_counterexample :
    LocationDecoder.decode locDocMalformed =
      .ok { name := .jstr "Cove", description := .jstr "dark",
            traits := .jnum 5, inventory := .defaultEmpty } ∧
    (JVal.jnum 5 ≠ .jarr []) ∧ (JVal.jnum 5 ≠ .jobj []) :=
  ⟨rfl, fun h => JVal.noConfusion h, fun h => JVal.noConfusion h⟩

/-- Witness for the amended C5 theorem: a document with only the required
fields decodes as a Location and as an Item, with all optional sub-fields
at their empty defaults. -/
theorem decode_tolerates_optional_subfields_witness :
    LocationDecoder.decode (.jobj fieldsMin) =
      .ok { name := .jstr "N", description := .jstr "D",
            traits := .jarr [], inventory := .defaultEmpty } ∧
    ItemDecoder.decode (.jobj fieldsMin) =
      .ok { name := .jstr "N", description := .jstr "D",
            traits := .jarr [], size := .jnum 2 } := by
  have h := decode_tolerates_optional_subfields fieldsMin
    (.jstr "N") (.jstr "D") (.jstr "T") rfl rfl rfl
  exact ⟨h.1, h.2.2.1⟩
